import Mathlib

/-!
Verification development for the pico-moth-lights controller (`src/main.py`),
a MicroPython program that drives four three-color LED "traffic light" modules
("cages") through a calendar-anchored 24-day cycle with a per-cage blink
overlay.  The definitions below are a shallow embedding of the source:
Python integers become `Nat`/`Int`, the Python `%` on a positive modulus is
`Int.emod`, Python's floor division `//` is `Int.fdiv`, and MicroPython's
DST-free `time.mktime` calendar arithmetic is embedded as seconds since the
MicroPython epoch 2000-01-01.
-/

namespace MothLights

/-! ## Calendar arithmetic (embedding of MicroPython `time.mktime`)

MicroPython's `time.mktime` has no timezone or DST database: it converts a
local calendar tuple `(year, month, mday, hour, minute, second, …)` to
seconds since 2000-01-01 00:00:00 by plain Gregorian arithmetic.  We embed it
for years ≥ 2000 (the MicroPython epoch; the Pico RTC cannot represent
earlier dates). -/

/-- Gregorian leap-year test. -/
def isLeap (y : Nat) : Bool :=
  y % 4 = 0 && (y % 100 ≠ 0 || y % 400 = 0)

/-- Days in the months strictly before month `m` of a non-leap year
(`m` is 1-based). -/
def daysBeforeMonth (m : Nat) : Nat :=
  [0, 31, 59, 90, 120, 151, 181, 212, 243, 273, 304, 334].getD (m - 1) 0

/-- 1-based day of the year of a calendar date. -/
def yearDay (y m d : Nat) : Nat :=
  daysBeforeMonth m + (if 2 < m && isLeap y then 1 else 0) + d

/-- Number of leap years in `[1, y)`. -/
def leapsBefore (y : Nat) : Nat :=
  (y - 1) / 4 - (y - 1) / 100 + (y - 1) / 400

/-- Days elapsed from 2000-01-01 to the given calendar date (for `y ≥ 2000`). -/
def daysSince2000 (y m d : Nat) : Nat :=
  365 * (y - 2000) + (leapsBefore y - leapsBefore 2000) + (yearDay y m d - 1)

/-- A local calendar reading as produced by `time.localtime()` on the Pico:
`(year, month, mday, hour, minute, second, …)`.  The trailing weekday and
yearday fields are ignored by `mktime` and omitted. -/
structure LocalTime where
  year : Nat
  month : Nat
  day : Nat
  hour : Nat
  minute : Nat
  second : Nat
deriving DecidableEq, Repr

/-- A reading has in-range time-of-day fields. -/
def LocalTime.validTime (t : LocalTime) : Prop :=
  t.hour < 24 ∧ t.minute < 60 ∧ t.second < 60

instance (t : LocalTime) : Decidable t.validTime := by
  unfold LocalTime.validTime; infer_instance

/-- Embedding of MicroPython `time.mktime`: seconds since 2000-01-01,
by DST-free Gregorian arithmetic. -/
def mktime (t : LocalTime) : Nat :=
  daysSince2000 t.year t.month t.day * 86400
    + t.hour * 3600 + t.minute * 60 + t.second

/-! ## Configuration constants (`src/main.py` lines 10–31) -/

def CYCLE_LENGTH_DAYS : Int := 24

/-- Cage phase offsets in days within the 24-day cycle. -/
def CAGE_OFFSETS : List (Nat × Int) := [(1, 0), (2, 6), (3, 12), (4, 18)]

def REFERENCE_YEAR : Nat := 2025
def REFERENCE_MONTH : Nat := 12
def REFERENCE_DAY : Nat := 3
def REFERENCE_GLOBAL_DAY : Int := 13

/-- The reference tuple `(REFERENCE_YEAR, REFERENCE_MONTH, REFERENCE_DAY,
0, 0, 0, 0, 0)` built in `days_since_reference`: local midnight of the
anchor date. -/
def referenceTuple : LocalTime :=
  ⟨REFERENCE_YEAR, REFERENCE_MONTH, REFERENCE_DAY, 0, 0, 0⟩

/-! ## DateAnchor (`src/main.py` lines 148–170) -/

/-- `days_since_reference`: `int((now_secs - ref_secs) // (24*60*60))` where
`now_secs = mktime(localtime())` and `ref_secs = mktime(ref_tuple)`.
Python's `//` on ints is floor division, hence `Int.fdiv`. -/
def days_since_reference (now : LocalTime) : Int :=
  Int.fdiv ((mktime now : Int) - (mktime referenceTuple : Int)) (24 * 60 * 60)

/-- `current_global_day`: `(REFERENCE_GLOBAL_DAY + d) % CYCLE_LENGTH_DAYS`.
Python's `%` with the positive modulus 24 is `Int.emod` (Lean's `%`). -/
def current_global_day (now : LocalTime) : Int :=
  (REFERENCE_GLOBAL_DAY + days_since_reference now) % CYCLE_LENGTH_DAYS

/-- The number of whole calendar days between local midnight of the anchor
date and local midnight of the current local date — the spec's wording of
the day count ("day-granular midnight-to-midnight arithmetic"), stated as
the difference of the dates' ordinals.  To be compared with the source's
`days_since_reference`. -/
def midnightToMidnightDays (now : LocalTime) : Int :=
  (daysSince2000 now.year now.month now.day : Int)
    - (daysSince2000 REFERENCE_YEAR REFERENCE_MONTH REFERENCE_DAY : Int)

/-! ## ZonePhaseMapper (`src/main.py` lines 92–145) -/

/-- `color_for_cage_day`: 0-based day ranges 0–5 green, 6–19 yellow,
else (20–23) red. -/
def color_for_cage_day (cage_day : Int) : String :=
  if 0 ≤ cage_day ∧ cage_day ≤ 5 then "green"
  else if 6 ≤ cage_day ∧ cage_day ≤ 19 then "yellow"
  else "red"

/-- The blink lookup table of `blink_count_for_cage_day` (one entry per
cage day, index 0 = day 1 … index 23 = day 24). -/
def blink_table : List Nat :=
  [1, 2, 3, 4, 4, 4, 6, 6, 6, 8, 8, 8, 8, 8, 6, 6, 4, 4, 4, 4, 0, 0, 0, 0]

/-- `blink_count_for_cage_day`: `blink_table[cage_day]`.  In Python an index
outside `[0, 24)` raises `IndexError` (negative indices would wrap); every
call site passes `( … ) % 24 ∈ [0, 24)`, so on all reachable inputs the
total function below (default 0 out of range) agrees with the source. -/
def blink_count_for_cage_day (cage_day : Int) : Nat :=
  blink_table.getD cage_day.toNat 0

/-! ## Output Sink adapter (`src/main.py` lines 34–89)

A cage's three LED pins, each holding a written value (`LED_ON = 1`,
`LED_OFF = 0`). -/

def LED_ON : Nat := 1
def LED_OFF : Nat := 0

structure CagePins where
  r : Nat
  y : Nat
  g : Nat
deriving DecidableEq, Repr

/-- `set_cage_color`: turn all pins of the cage off first, then turn the
pin of the matched color on; an unmatched color only prints a warning
(the Boolean in the result records whether the warning was printed). -/
def set_cage_color (pins : CagePins) (color : String) : CagePins × Bool :=
  let cleared : CagePins := ⟨LED_OFF, LED_OFF, LED_OFF⟩
  if color = "red" then ({ cleared with r := LED_ON }, false)
  else if color = "yellow" then ({ cleared with y := LED_ON }, false)
  else if color = "green" then ({ cleared with g := LED_ON }, false)
  else (cleared, true)

/-- `set_cage_off`: every pin of the cage to `LED_OFF`. -/
def set_cage_off (_pins : CagePins) : CagePins :=
  ⟨LED_OFF, LED_OFF, LED_OFF⟩

/-! ## BlinkScheduler (`src/main.py` lines 173–267) -/

/-- The `"phase"` strings of the per-cage runtime dict. -/
inductive Phase
  | solid_only
  | solid_gap
  | blink_on
  | blink_off
deriving DecidableEq, Repr

/-- One per-cage runtime dict as built by
`compute_cage_runtime_for_global_day`. -/
structure CageState where
  color : String
  blinks : Nat
  cage_day : Int
  phase : Phase
  timer : Nat
  blink_index : Nat
deriving DecidableEq, Repr

/-- What a tick sends to the output sink for one cage:
`set_cage_color` with the day's color, or `set_cage_off`. -/
inductive Output
  | setColor (color : String)
  | off
deriving DecidableEq, Repr

/-- `compute_cage_runtime_for_global_day`: per cage, derive
`cage_day = (global_day - offset) % CYCLE_LENGTH_DAYS`, the color, the
blink count, and the initial blink state (`solid_only` when no blinks,
else `solid_gap` with `timer = 0`, `blink_index = 0`). -/
def compute_cage_runtime_for_global_day (global_day : Int) :
    List (Nat × CageState) :=
  CAGE_OFFSETS.map (fun p =>
    let cage_day := (global_day - p.2) % CYCLE_LENGTH_DAYS
    let color := color_for_cage_day cage_day
    let blinks := blink_count_for_cage_day cage_day
    let phase := if blinks = 0 then Phase.solid_only else Phase.solid_gap
    (p.1, { color := color, blinks := blinks, cage_day := cage_day,
            phase := phase, timer := 0, blink_index := 0 }))

/-- The body of `apply_blink_logic_one_tick` for a single cage: emit the
output-sink call made during the tick (`none` on the fall-through branch
where `blinks > 0` but `phase` is `solid_only`, which calls nothing) and
the updated runtime state.  Each branch mirrors the source: output first,
then `timer += 1` and the threshold checks. -/
def blinkTick (state : CageState) : Option Output × CageState :=
  if state.blinks = 0 then
    (some (Output.setColor state.color), state)
  else if state.phase = Phase.solid_gap then
    let t := state.timer + 1
    if t ≥ 10 then
      (some (Output.setColor state.color),
       { state with phase := Phase.blink_on, timer := 0, blink_index := 0 })
    else
      (some (Output.setColor state.color), { state with timer := t })
  else if state.phase = Phase.blink_on then
    let t := state.timer + 1
    if t ≥ 1 then
      (some (Output.setColor state.color),
       { state with phase := Phase.blink_off, timer := 0 })
    else
      (some (Output.setColor state.color), { state with timer := t })
  else if state.phase = Phase.blink_off then
    let t := state.timer + 1
    if t ≥ 1 then
      let bi := state.blink_index + 1
      if bi ≥ state.blinks then
        (some Output.off,
         { state with phase := Phase.solid_gap, timer := 0, blink_index := 0 })
      else
        (some Output.off,
         { state with phase := Phase.blink_on, timer := 0, blink_index := bi })
    else
      (some Output.off, { state with timer := t })
  else
    (none, state)

/-- `apply_blink_logic_one_tick`: advance every cage of the runtime dict by
one tick; returns the updated dict and the per-cage output-sink calls. -/
def apply_blink_logic_one_tick (cage_runtime : List (Nat × CageState)) :
    List (Nat × CageState) × List (Nat × Option Output) :=
  (cage_runtime.map (fun p => (p.1, (blinkTick p.2).2)),
   cage_runtime.map (fun p => (p.1, (blinkTick p.2).1)))

/-- Iterate `blinkTick` on one cage for `k` ticks, collecting the emitted
output-sink calls in order. -/
def runTicks (s : CageState) : Nat → List (Option Output) × CageState
  | 0 => ([], s)
  | k + 1 =>
    ((blinkTick s).1 :: (runTicks (blinkTick s).2 k).1,
     (runTicks (blinkTick s).2 k).2)

/-- The fresh runtime state `compute_cage_runtime_for_global_day` creates
for a cage with a positive blink count. -/
def freshState (color : String) (cage_day : Int) (blinks : Nat) : CageState :=
  { color := color, blinks := blinks, cage_day := cage_day,
    phase := Phase.solid_gap, timer := 0, blink_index := 0 }

/-- Abbreviation for a cage state with every field explicit, used to state
the blink state-machine lemmas. -/
def mkState (color : String) (cage_day : Int) (blinks : Nat) (phase : Phase)
    (timer blink_index : Nat) : CageState :=
  { color := color, blinks := blinks, cage_day := cage_day,
    phase := phase, timer := timer, blink_index := blink_index }

/-! ## Main loop (`src/main.py` lines 269–299)

The program performs no startup validation: after forcing all pins off it
enters `while True: try: … except Exception: print(…); time.sleep(5)`.
To examine invalid configurations we parameterize the one `%` that the
loop body reaches first by the configured cycle length; in Python `x % 0`
raises `ZeroDivisionError`. -/

/-- Python `%` as the loop body uses it: raises on modulus 0, otherwise
the sign-of-divisor remainder (for a positive divisor, `Int.emod`). -/
def pymod (a b : Int) : Except String Int :=
  if b = 0 then Except.error ("ZeroDivisionError") else Except.ok (a % b)

/-- What one pass of the `while True` body does: either it ran (computing
the global day; on a day change it would recompute the cage runtime and in
either case tick every cage), or an exception was caught by the
`except Exception` clause, printed, and followed by `time.sleep(5)`.
In both cases the loop continues — the type has no halting outcome
because the source gives the loop no way to terminate the program. -/
inductive IterationOutcome
  | ran (global_day : Int)
  | caught (msg : String)
deriving DecidableEq, Repr

/-- One iteration of the main loop with the cycle length taken as a
parameter (the source reads the global `CYCLE_LENGTH_DAYS`).  The first
statement of the body computes
`(REFERENCE_GLOBAL_DAY + days_since_reference()) % cycle_length_days`;
with an invalid cycle length 0 this raises, and the catch-all absorbs it. -/
def main_loop_iteration (cycle_length_days : Int) (t : LocalTime) :
    IterationOutcome :=
  match pymod (REFERENCE_GLOBAL_DAY + days_since_reference t)
      cycle_length_days with
  | Except.ok gday => IterationOutcome.ran gday
  | Except.error e => IterationOutcome.caught e

/-! ## TimezoneResolver (spec §4.1)

`src/main.py` contains no timezone or DST handling: `time.localtime()`
reads the RTC directly and its value is used as-is.  The spec nevertheless
specifies a TimezoneResolver component with a US DST rule; the definitions
below are therefore modelled from the spec, not from the source. -/

/-- Modelled from the spec: weekday of a calendar date (Monday = 0 …
Sunday = 6, the MicroPython convention), derived from the day ordinal
(2000-01-01 was a Saturday, weekday 5). -/
def weekdayOf (y m d : Nat) : Nat :=
  (daysSince2000 y m d + 5) % 7

/-- Modelled from the spec: the day of month of the n-th Sunday of month
`m` of year `y`, computed from the weekday of the 1st of the month
(spec §4.1: "The nth Sunday of month is computed from the weekday of the
1st of the month"). -/
def nthSundayOfMonth (y m n : Nat) : Nat :=
  let w1 := weekdayOf y m 1
  1 + (6 + 7 - w1) % 7 + 7 * (n - 1)

/-- Modelled from the spec: the US DST rule of §4.1.  `hour` is the local
hour with the standard offset already applied (the spec's documented
edge-case policy).  Outside March–November the standard offset applies;
strictly between them the daylight offset applies; in March daylight
becomes active at 02:00 on the 2nd Sunday; in November daylight ends at
02:00 on the 1st Sunday.  Returns `true` when the daylight offset is to
be used. -/
def dstActive (year month day hour : Nat) : Bool :=
  if month < 3 || 11 < month then false
  else if 3 < month && month < 11 then true
  else if month = 3 then
    let ss := nthSundayOfMonth year 3 2
    ss < day || (day = ss && 2 ≤ hour)
  else
    let fs := nthSundayOfMonth year 11 1
    day < fs || (day = fs && hour < 2)

/-! ## Theorems -/

/-- Claim C1, counterexample: with cage output red-ON, passing the
unrecognized color "blue" to `set_cage_color` does change the output state
(the red pin is driven from `LED_ON` to `LED_OFF`), contradicting the
claim that no LED pin changes value. -/
theorem c1_counterexample :
    (set_cage_color ⟨LED_ON, LED_OFF, LED_OFF⟩ ("blue")).1
      ≠ ⟨LED_ON, LED_OFF, LED_OFF⟩ := by
  decide

/-- Claim C1 (amended): when an unrecognized color value (any string other
than "red", "yellow", "green") is passed to `set_cage_color`, all three
LED pins of the cage are driven to `LED_OFF` (the adapter clears every pin
before matching the color), and a warning is logged; the prior output
state is not preserved. -/
theorem c1_unrecognized_color_clears_outputs (pins : CagePins)
    (color : String) (h1 : color ≠ "red") (h2 : color ≠ "yellow")
    (h3 : color ≠ "green") :
    set_cage_color pins color = (⟨LED_OFF, LED_OFF, LED_OFF⟩, true) := by
  simp [set_cage_color, h1, h2, h3]

/-- Witness for C1's amended theorem at the concrete input "blue". -/
theorem c1_witness :
    set_cage_color ⟨LED_ON, LED_OFF, LED_OFF⟩ ("blue")
      = (⟨LED_OFF, LED_OFF, LED_OFF⟩, true) :=
  c1_unrecognized_color_clears_outputs ⟨LED_ON, LED_OFF, LED_OFF⟩ ("blue")
    (by decide) (by decide) (by decide)

/-- Claim C3 (code bug evidence): with the invalid configuration
`cycle_length_days = 0` the program does not fail at startup — there is no
startup validation — but enters the scheduling loop, where the
`ZeroDivisionError` raised by `% 0` is caught by the loop's catch-all
handler, logged, and followed by a 5-second sleep; the loop then retries
forever instead of refusing to run. -/
theorem c3_invalid_config_absorbed_by_loop :
    main_loop_iteration 0 ⟨2025, 12, 10, 8, 0, 0⟩
      = IterationOutcome.caught ("ZeroDivisionError") := by
  decide

/-- Claim C6: for every cage day in `[0, cycle_length_days)`, the blink
count is zero exactly when the day's color is red. -/
theorem c6_blink_zero_iff_red :
    ∀ d : Nat, d < 24 →
      (blink_count_for_cage_day (d : Int) = 0
        ↔ color_for_cage_day (d : Int) = "red") := by
  decide

/-- Witness for C6 at cage day 20. -/
theorem c6_witness :
    blink_count_for_cage_day (20 : Int) = 0
      ↔ color_for_cage_day (20 : Int) = "red" :=
  c6_blink_zero_iff_red 20 (by decide)

/-- Claim C7: the color partition is exhaustive and mutually disjoint with
exact boundaries: every cage day in `[0, 24)` gets green exactly on 0–5,
yellow exactly on 6–19 and red exactly on 20–23 (so exactly one color,
the ranges being mutually exclusive and exhaustive over `[0, 24)`); in
particular day 19 is yellow and day 20 is red. -/
theorem c7_color_partition :
    (∀ d : Nat, d < 24 →
      ((color_for_cage_day (d : Int) = "green" ↔ d ≤ 5) ∧
       (color_for_cage_day (d : Int) = "yellow" ↔ 6 ≤ d ∧ d ≤ 19) ∧
       (color_for_cage_day (d : Int) = "red" ↔ 20 ≤ d)))
    ∧ color_for_cage_day (19 : Int) = "yellow"
    ∧ color_for_cage_day (20 : Int) = "red" := by
  refine ⟨by decide, by decide, by decide⟩

/-- Witness for C7 at cage day 19. -/
theorem c7_witness :
    color_for_cage_day ((19 : Nat) : Int) = "yellow" ↔ 6 ≤ 19 ∧ 19 ≤ 19 :=
  (c7_color_partition.1 19 (by decide)).2.1

/-- One blink tick never touches the derived per-day fields of a cage
state: `color`, `blinks` and `cage_day` are returned unchanged. -/
theorem blinkTick_frame (s : CageState) :
    ((blinkTick s).2).color = s.color ∧ ((blinkTick s).2).blinks = s.blinks
      ∧ ((blinkTick s).2).cage_day = s.cage_day := by
  unfold blinkTick
  dsimp only
  split_ifs <;> simp

/-- Exhaustive check of the modelled US DST rule over every
(month, day, hour) triple of 2025: the daylight offset applies exactly on
the half-open interval from 02:00 on March 9 to 02:00 on November 2. -/
theorem dst_rule_check :
    ∀ m : Nat, m < 13 → ∀ d : Nat, d < 32 → ∀ h : Nat, h < 24 →
      (dstActive 2025 m d h = true ↔
        ((3 < m ∨ (m = 3 ∧ (9 < d ∨ (d = 9 ∧ 2 ≤ h)))) ∧
         (m < 11 ∨ (m = 11 ∧ (d < 2 ∨ (d = 2 ∧ h < 2)))))) := by
  intro m hm
  interval_cases m <;> decide

/-- Claim C4: for every timestamp of year 2025 the modelled resolver uses
the daylight offset exactly for instants from 02:00 on March 9 (the 2nd
Sunday of March, computed by `nthSundayOfMonth`) up to 02:00 on
November 2 (the 1st Sunday of November) — the 02:00 start of daylight
time is included in the daylight range, daylight ends at 02:00 on
November 2 — and the standard offset outside that range. -/
theorem c4_dst_rule_2025 (m d h : Nat) (hm1 : 1 ≤ m) (hm2 : m ≤ 12)
    (hd1 : 1 ≤ d) (hd2 : d ≤ 31) (hh : h < 24) :
    nthSundayOfMonth 2025 3 2 = 9 ∧ nthSundayOfMonth 2025 11 1 = 2 ∧
      (dstActive 2025 m d h = true ↔
        ((3 < m ∨ (m = 3 ∧ (9 < d ∨ (d = 9 ∧ 2 ≤ h)))) ∧
         (m < 11 ∨ (m = 11 ∧ (d < 2 ∨ (d = 2 ∧ h < 2)))))) :=
  ⟨by decide, by decide, dst_rule_check m (by omega) d (by omega) h hh⟩

/-- Witness for C4 at noon of July 4, 2025 (daylight time). -/
theorem c4_witness :
    nthSundayOfMonth 2025 3 2 = 9 ∧ nthSundayOfMonth 2025 11 1 = 2 ∧
      (dstActive 2025 7 4 12 = true ↔
        ((3 < 7 ∨ (7 = 3 ∧ (9 < 4 ∨ (4 = 9 ∧ 2 ≤ 12)))) ∧
         (7 < 11 ∨ (7 = 11 ∧ (4 < 2 ∨ (4 = 2 ∧ 12 < 2)))))) :=
  c4_dst_rule_2025 7 4 12 (by decide) (by decide) (by decide) (by decide)
    (by decide)

/-- Core DateAnchor lemma: because the reference instant is a local
midnight and the embedded `mktime` is DST-free calendar arithmetic, the
86400-second floor division in `days_since_reference` evaluates, for every
reading with in-range time-of-day fields, to the difference of day
ordinals — the whole-day midnight-to-midnight count. -/
theorem days_since_reference_eq (t : LocalTime) (ht : t.validTime) :
    days_since_reference t = midnightToMidnightDays t := by
  obtain ⟨h1, h2, h3⟩ := ht
  unfold days_since_reference midnightToMidnightDays mktime referenceTuple
  have hs : t.hour * 3600 + t.minute * 60 + t.second < 86400 := by omega
  have e1 : ((daysSince2000 t.year t.month t.day * 86400
        + t.hour * 3600 + t.minute * 60 + t.second : Nat) : Int)
      - ((daysSince2000 REFERENCE_YEAR REFERENCE_MONTH REFERENCE_DAY * 86400
        + 0 * 3600 + 0 * 60 + 0 : Nat) : Int)
      = ((t.hour * 3600 + t.minute * 60 + t.second : Nat) : Int)
        + ((daysSince2000 t.year t.month t.day : Int)
            - (daysSince2000 REFERENCE_YEAR REFERENCE_MONTH
                REFERENCE_DAY : Int)) * 86400 := by
    push_cast
    ring
  rw [e1, show (24 * 60 * 60 : Int) = 86400 by norm_num]
  rw [Int.fdiv_eq_ediv _ (by norm_num)]
  rw [Int.add_mul_ediv_right _ _ (by norm_num : (86400 : Int) ≠ 0)]
  rw [Int.ediv_eq_zero_of_lt (by positivity) (by exact_mod_cast hs)]
  ring

/-- Claim C2: for every local reading, `days_since_reference` equals the
number of whole calendar days between local midnight of the anchor date
and local midnight of the current local date (`midnightToMidnightDays`,
the day-granular midnight-to-midnight count), for any hour of the day —
so the derived day index cannot drift across a DST clock shift. -/
theorem c2_days_since_reference_midnight_to_midnight (t : LocalTime)
    (ht : t.validTime) :
    days_since_reference t = midnightToMidnightDays t :=
  days_since_reference_eq t ht

/-- Witness for C2 at a concrete afternoon reading one week past the
anchor date. -/
theorem c2_witness :
    days_since_reference ⟨2025, 12, 10, 15, 30, 7⟩
      = midnightToMidnightDays ⟨2025, 12, 10, 15, 30, 7⟩ :=
  c2_days_since_reference_midnight_to_midnight ⟨2025, 12, 10, 15, 30, 7⟩
    (by decide)

/-- Claim C8: DateAnchor idempotence — two readings on the same local
calendar date yield the same `current_global_day`, regardless of the hour
of evaluation. -/
theorem c8_global_day_idempotent_per_date (t1 t2 : LocalTime)
    (h1 : t1.validTime) (h2 : t2.validTime) (hy : t1.year = t2.year)
    (hm : t1.month = t2.month) (hd : t1.day = t2.day) :
    current_global_day t1 = current_global_day t2 := by
  unfold current_global_day
  rw [days_since_reference_eq t1 h1, days_since_reference_eq t2 h2]
  unfold midnightToMidnightDays
  rw [hy, hm, hd]

/-- Witness for C8: a morning and an evening reading of the same date. -/
theorem c8_witness :
    current_global_day ⟨2025, 12, 14, 0, 0, 0⟩
      = current_global_day ⟨2025, 12, 14, 23, 59, 59⟩ :=
  c8_global_day_idempotent_per_date ⟨2025, 12, 14, 0, 0, 0⟩
    ⟨2025, 12, 14, 23, 59, 59⟩ (by decide) (by decide) rfl rfl rfl

/-- Claim C9: range invariant of the derived day indices.  For every clock
reading — dates before the anchor date included — `current_global_day`
lands in `[0, CYCLE_LENGTH_DAYS)`; and for every global day in that range
and every cage of the configured offsets, the derived
`cage_day = (global_day - offset) % CYCLE_LENGTH_DAYS` computed by
`compute_cage_runtime_for_global_day` is again in
`[0, CYCLE_LENGTH_DAYS)`. -/
theorem c9_day_index_ranges :
    (∀ t : LocalTime, 0 ≤ current_global_day t
      ∧ current_global_day t < CYCLE_LENGTH_DAYS)
    ∧ (∀ g : Int, 0 ≤ g → g < CYCLE_LENGTH_DAYS →
        ∀ p ∈ compute_cage_runtime_for_global_day g,
          0 ≤ p.2.cage_day ∧ p.2.cage_day < CYCLE_LENGTH_DAYS) := by
  constructor
  · intro t
    unfold current_global_day CYCLE_LENGTH_DAYS
    exact ⟨Int.emod_nonneg _ (by norm_num), Int.emod_lt_of_pos _ (by norm_num)⟩
  · intro g _ _ p hp
    simp only [compute_cage_runtime_for_global_day, CAGE_OFFSETS,
      CYCLE_LENGTH_DAYS, List.map_cons, List.map_nil, List.mem_cons,
      List.not_mem_nil, or_false] at hp ⊢
    rcases hp with h | h | h | h <;> subst h <;> dsimp only <;>
      exact ⟨Int.emod_nonneg _ (by norm_num), Int.emod_lt_of_pos _ (by norm_num)⟩

/-- Witness for C9's hypotheses at global day 5 and the cage-2 entry of
the runtime table. -/
theorem c9_witness :
    0 ≤ ((2, mkState ("red") 23 0 Phase.solid_only 0 0) : Nat × CageState).2.cage_day
      ∧ ((2, mkState ("red") 23 0 Phase.solid_only 0 0) : Nat × CageState).2.cage_day
        < CYCLE_LENGTH_DAYS :=
  c9_day_index_ranges.2 5 (by decide) (by decide)
    (2, mkState ("red") 23 0 Phase.solid_only 0 0) (by decide)

/-- A `solid_gap` tick before the threshold: solid color is emitted and
only the timer advances. -/
theorem blinkTick_solid_gap_step (c : String) (day : Int) (N t : Nat)
    (hN : N ≠ 0) (ht : t + 1 < 10) :
    blinkTick (mkState c day N Phase.solid_gap t 0)
      = (some (Output.setColor c),
         mkState c day N Phase.solid_gap (t + 1) 0) := by
  simp [blinkTick, mkState, hN, show ¬ 10 ≤ t + 1 by omega]

/-- The tenth `solid_gap` tick: solid color is emitted and the burst
starts with `blink_index = 0`. -/
theorem blinkTick_solid_gap_last (c : String) (day : Int) (N t : Nat)
    (hN : N ≠ 0) (ht : 10 ≤ t + 1) :
    blinkTick (mkState c day N Phase.solid_gap t 0)
      = (some (Output.setColor c), mkState c day N Phase.blink_on 0 0) := by
  simp [blinkTick, mkState, hN, ht]

/-- A `blink_on` tick: solid color for one second, then `blink_off`. -/
theorem blinkTick_blink_on (c : String) (day : Int) (N b : Nat)
    (hN : N ≠ 0) :
    blinkTick (mkState c day N Phase.blink_on 0 b)
      = (some (Output.setColor c), mkState c day N Phase.blink_off 0 b) := by
  simp [blinkTick, mkState, hN]

/-- A `blink_off` tick with pulses remaining: off for one second, the
pulse counter advances, and another `blink_on` follows. -/
theorem blinkTick_blink_off_more (c : String) (day : Int) (N b : Nat)
    (hN : N ≠ 0) (hb : b + 1 < N) :
    blinkTick (mkState c day N Phase.blink_off 0 b)
      = (some Output.off, mkState c day N Phase.blink_on 0 (b + 1)) := by
  simp [blinkTick, mkState, hN, show ¬ N ≤ b + 1 by omega]

/-- The last `blink_off` tick of a burst: off for one second, then back to
the ten-second solid gap with both counters reset. -/
theorem blinkTick_blink_off_done (c : String) (day : Int) (N b : Nat)
    (hN : N ≠ 0) (hb : N ≤ b + 1) :
    blinkTick (mkState c day N Phase.blink_off 0 b)
      = (some Output.off, mkState c day N Phase.solid_gap 0 0) := by
  simp [blinkTick, mkState, hN, hb]

/-- Splitting a run of ticks at an intermediate point. -/
theorem runTicks_add (k1 k2 : Nat) : ∀ s : CageState,
    runTicks s (k1 + k2)
      = ((runTicks s k1).1 ++ (runTicks (runTicks s k1).2 k2).1,
         (runTicks (runTicks s k1).2 k2).2) := by
  induction k1 with
  | zero => intro s; simp [runTicks]
  | succ n ih =>
    intro s
    rw [show n + 1 + k2 = (n + k2) + 1 by omega]
    simp only [runTicks]
    rw [ih]
    simp

/-- Running the solid gap from timer value `t`: each tick emits the solid
color until the timer reaches 10, at which point the burst begins. -/
theorem runTicks_solid_gap (c : String) (day : Int) (N : Nat) (hN : N ≠ 0) :
    ∀ k t : Nat, t < 10 → t + k ≤ 10 →
      runTicks (mkState c day N Phase.solid_gap t 0) k
        = (List.replicate k (some (Output.setColor c)),
           if t + k = 10 then mkState c day N Phase.blink_on 0 0
           else mkState c day N Phase.solid_gap (t + k) 0) := by
  intro k
  induction k with
  | zero =>
    intro t ht _
    rw [if_neg (by omega)]
    simp [runTicks]
  | succ n ih =>
    intro t ht htk
    by_cases h9 : 10 ≤ t + 1
    · have hn0 : n = 0 := by omega
      subst hn0
      simp only [runTicks, blinkTick_solid_gap_last c day N t hN h9]
      rw [if_pos (by omega)]
      simp [runTicks]
    · simp only [runTicks, blinkTick_solid_gap_step c day N t hN (by omega)]
      rw [ih (t + 1) (by omega) (by omega)]
      rw [show t + 1 + n = t + (n + 1) by omega]
      simp [List.replicate_succ]

/-- Two burst ticks with pulses remaining afterwards: one on-pulse, one
off-gap, pulse counter up by one. -/
theorem runTicks_two_blink_more (c : String) (day : Int) (N b : Nat)
    (hN : N ≠ 0) (hb : b + 1 < N) :
    runTicks (mkState c day N Phase.blink_on 0 b) 2
      = ([some (Output.setColor c), some Output.off],
         mkState c day N Phase.blink_on 0 (b + 1)) := by
  simp only [runTicks, blinkTick_blink_on c day N b hN]
  simp only [blinkTick_blink_off_more c day N b hN hb]

/-- The final two burst ticks: one on-pulse, one off-gap, then back to the
solid gap with both counters reset. -/
theorem runTicks_two_blink_done (c : String) (day : Int) (N b : Nat)
    (hN : N ≠ 0) (hb : N ≤ b + 1) :
    runTicks (mkState c day N Phase.blink_on 0 b) 2
      = ([some (Output.setColor c), some Output.off],
         mkState c day N Phase.solid_gap 0 0) := by
  simp only [runTicks, blinkTick_blink_on c day N b hN]
  simp only [blinkTick_blink_off_done c day N b hN hb]

/-- Running a full remaining burst of `j` pulses (current pulse counter
`N - j`): the emissions are `j` on/off pairs and the machine returns to
the fresh solid-gap state. -/
theorem runTicks_burst (c : String) (day : Int) (N : Nat) :
    ∀ j : Nat, 1 ≤ j → j ≤ N →
      runTicks (mkState c day N Phase.blink_on 0 (N - j)) (2 * j)
        = ((List.replicate j
              [some (Output.setColor c), some Output.off]).flatten,
           mkState c day N Phase.solid_gap 0 0) := by
  intro j
  induction j with
  | zero => intro h; omega
  | succ n ih =>
    intro _ hjN
    have hN : N ≠ 0 := by omega
    rw [show 2 * (n + 1) = 2 + 2 * n by omega, runTicks_add]
    by_cases hn : n = 0
    · subst hn
      rw [runTicks_two_blink_done c day N (N - 1) hN (by omega)]
      simp [runTicks]
    · rw [runTicks_two_blink_more c day N (N - (n + 1)) hN (by omega)]
      rw [show N - (n + 1) + 1 = N - n by omega]
      rw [ih (by omega) (by omega)]
      simp [List.replicate_succ]

/-- During a burst (any strict prefix of the `2 j` remaining ticks) the
machine's phase is never `solid_gap`. -/
theorem runTicks_burst_phase (c : String) (day : Int) (N : Nat) :
    ∀ j : Nat, j ≤ N → ∀ m : Nat, m < 2 * j →
      ((runTicks (mkState c day N Phase.blink_on 0 (N - j)) m).2).phase
        ≠ Phase.solid_gap := by
  intro j
  induction j with
  | zero => intro _ m hm; omega
  | succ n ih =>
    intro hjN m hm
    have hN : N ≠ 0 := by omega
    match m with
    | 0 => simp [runTicks, mkState]
    | 1 =>
      simp only [runTicks, blinkTick_blink_on c day N (N - (n + 1)) hN]
      simp [mkState]
    | (m' + 2) =>
      have hn : n ≠ 0 := by omega
      rw [show m' + 2 = 2 + m' by omega, runTicks_add]
      rw [runTicks_two_blink_more c day N (N - (n + 1)) hN (by omega)]
      rw [show N - (n + 1) + 1 = N - n by omega]
      exact ih (by omega) m' (by omega)

/-- Claim C5: for every blink count `N > 0`, iterating
`apply_blink_logic_one_tick` on one cage from the fresh state
(`solid_gap`, timer 0, pulse counter 0) is periodic with period exactly
`10 + 2 N` ticks: the state returns to the fresh state after `10 + 2 N`
ticks and at no earlier positive tick, and one period's output-sink calls
are a 10-tick solid gap (solid color) followed by exactly `N` one-tick
on-pulses, each followed by a one-tick off gap. -/
theorem c5_blink_cycle_period (c : String) (day : Int) (N : Nat)
    (hN : 0 < N) :
    runTicks (freshState c day N) (10 + 2 * N)
      = (List.replicate 10 (some (Output.setColor c))
          ++ (List.replicate N
                [some (Output.setColor c), some Output.off]).flatten,
         freshState c day N)
    ∧ ∀ k : Nat, 0 < k → k < 10 + 2 * N →
        (runTicks (freshState c day N) k).2 ≠ freshState c day N := by
  have hN0 : N ≠ 0 := by omega
  have hfresh : freshState c day N = mkState c day N Phase.solid_gap 0 0 :=
    rfl
  have hgap := runTicks_solid_gap c day N hN0 10 0 (by omega) (by omega)
  rw [if_pos (by omega)] at hgap
  constructor
  · rw [hfresh, runTicks_add 10 (2 * N), hgap]
    have hburst := runTicks_burst c day N N (by omega) (by omega)
    rw [Nat.sub_self] at hburst
    rw [hburst]
  · intro k hk1 hk2
    by_cases hk10 : k < 10
    · have h := runTicks_solid_gap c day N hN0 k 0 (by omega) (by omega)
      rw [if_neg (by omega)] at h
      rw [hfresh, h]
      intro heq
      have ht : 0 + k = 0 := congrArg CageState.timer heq
      omega
    · rw [hfresh, show k = 10 + (k - 10) by omega, runTicks_add 10 (k - 10),
        hgap]
      have hphase := runTicks_burst_phase c day N N (by omega) (k - 10)
        (by omega)
      rw [Nat.sub_self] at hphase
      intro heq
      apply hphase
      rw [heq]
      rfl

/-- Witness for C5 at `N = 2`: one period of 14 ticks. -/
theorem c5_witness :
    runTicks (freshState ("green") 0 2) (10 + 2 * 2)
      = (List.replicate 10 (some (Output.setColor ("green")))
          ++ (List.replicate 2
                [some (Output.setColor ("green")), some Output.off]).flatten,
         freshState ("green") 0 2)
    ∧ ∀ k : Nat, 0 < k → k < 10 + 2 * 2 →
        (runTicks (freshState ("green") 0 2) k).2 ≠ freshState ("green") 0 2 :=
  c5_blink_cycle_period ("green") 0 2 (by decide)

/-- Claim C10: one application of `apply_blink_logic_one_tick` leaves the
`color`, `blinks` and `cage_day` fields of every cage unchanged; only
`phase`, `timer` and `blink_index` may change. -/
theorem c10_tick_frame_property (cage_runtime : List (Nat × CageState)) :
    ((apply_blink_logic_one_tick cage_runtime).1).map
        (fun p => (p.1, p.2.color, p.2.blinks, p.2.cage_day))
      = cage_runtime.map
        (fun p => (p.1, p.2.color, p.2.blinks, p.2.cage_day)) := by
  unfold apply_blink_logic_one_tick
  rw [List.map_map]
  refine List.map_congr_left (fun p _ => ?r)
  obtain ⟨h1, h2, h3⟩ := blinkTick_frame p.2
  simp [Function.comp, h1, h2, h3]

end MothLights
